import Mathlib

/-!
Shallow embedding of `src/standApp.py` (BuyTheDeep): the market-session gate
(`check_market_status`) and the statistical banding engine
(`get_stand_strategy`), together with theorems settling the specification
claims about them.

Conventions of the embedding:
* a time-of-day is a number of seconds since midnight (`mkTime h m s`
  mirrors Python's `time(h, m, s)`; comparisons coincide);
* a weekday is a `Nat` with Monday = 0, as in `datetime.weekday()`;
* closing prices are exact rationals (the Python floats, idealized);
* the human-readable status strings are modelled by the inductive `Msg`,
  one constructor per distinct message of the source, carrying the data
  interpolated into the corresponding f-string;
* the sample standard deviation is `Real.sqrt` of the exact sample
  variance, so band targets live in `ℝ`.
-/

namespace StandApp

/-- Python's `time(h, m, s)` as seconds since midnight. -/
def mkTime (h m s : Nat) : Nat := h * 3600 + m * 60 + s

/-- A fully specified evaluation instant: weekday (Monday = 0) and
time-of-day in seconds. -/
structure Instant where
  weekday : Nat
  tod : Nat
deriving DecidableEq

/-- The three run modes of the app: real-time, forced-Korean and
forced-US evaluation (`st.session_state['run_mode']`). -/
inductive Mode
  | real
  | mockKr
  | mockUs
deriving DecidableEq

/-- The distinct status messages produced by `check_market_status`,
with the data each f-string interpolates. -/
inductive Msg
  | weekend
  | krOpen (is_mock : Bool)
  | krClosed (tod : Nat)
  | usOpen (is_mock : Bool)
  | usClosed (tod : Nat)
deriving DecidableEq

/-- The `(is_open, msg)` pair returned by `check_market_status`. -/
structure SessionStatus where
  is_open : Bool
  reason : Msg
deriving DecidableEq

/-- `ticker_code.upper().endswith(".KS") or ticker_code.upper().endswith(".KQ")`
(lines 47 and 152 of the source), over the ticker's character list. -/
def isKoreanTicker (t : String) : Bool :=
  (List.isSuffixOf ['.', 'K', 'S'] (t.data.map Char.toUpper)) ||
  (List.isSuffixOf ['.', 'K', 'Q'] (t.data.map Char.toUpper))

/-- `check_market_status(ticker_code, mode)` (lines 22-63), with the
real-clock instant passed explicitly.  The mock modes replace the instant
by a synthetic Wednesday 14:00 (Korean) or Wednesday 01:00 (US); the
weekend gate (line 43) precedes the per-market window tests. -/
def check_market_status (ticker_code : String) (mode : Mode) (now : Instant) :
    SessionStatus :=
  let current_time : Nat :=
    match mode with
    | .mockKr => mkTime 14 0 0
    | .mockUs => mkTime 1 0 0
    | .real => now.tod
  let weekday : Nat :=
    match mode with
    | .mockKr => 2
    | .mockUs => 2
    | .real => now.weekday
  let is_mock : Bool :=
    match mode with
    | .mockKr => true
    | .mockUs => true
    | .real => false
  if 5 ≤ weekday then
    ⟨false, .weekend⟩
  else if isKoreanTicker ticker_code then
    if mkTime 9 20 0 ≤ current_time ∧ current_time ≤ mkTime 15 30 0 then
      ⟨true, .krOpen is_mock⟩
    else
      ⟨false, .krClosed current_time⟩
  else
    if mkTime 23 50 0 ≤ current_time ∨ current_time ≤ mkTime 6 0 0 then
      ⟨true, .usOpen is_mock⟩
    else
      ⟨false, .usClosed current_time⟩

/-- A daily bar of the fetched history: trading date (as an ordinal) and
closing price. -/
structure Bar where
  date : Int
  close : ℚ
deriving DecidableEq

/-- A row of `confirmed_df` after line 90 added the `Return` column;
`ret = none` models the NaN that `pct_change` leaves at the first row. -/
structure ConfirmedRow where
  date : Int
  close : ℚ
  ret : Option ℚ
deriving DecidableEq

/-- The errors the engine reports (section 7 of the design).  The source
produces only the first two: `marketClosed` carries the gate's message
(line 72) and `insufficientHistory` is the fixed load-failure message of
line 79.  `malformedHistory` appears in the spec's error taxonomy but no
code path of `src/standApp.py` emits it. -/
inductive AnalysisError
  | marketClosed (msg : Msg)
  | insufficientHistory
  | malformedHistory
deriving DecidableEq

/-- `Series.pct_change()` on a list of closes: NaN (`none`) at the first
position, then `close[i]/close[i-1] - 1`. -/
def pct_change : List ℚ → List (Option ℚ)
  | [] => []
  | c :: cs => none :: pctChangeFrom c cs
where
  pctChangeFrom : ℚ → List ℚ → List (Option ℚ)
    | _, [] => []
    | prev, c :: cs => some (c / prev - 1) :: pctChangeFrom c cs

/-- The non-NaN values of `pct_change`: the simple returns of consecutive
closes.  Pandas `mean`/`std` skip the NaN, so the statistics run over
exactly this list. -/
def returnsOf (closes : List ℚ) : List ℚ :=
  List.zipWith (fun prev cur => cur / prev - 1) closes closes.tail

/-- `Series.mean()` over the non-NaN returns. -/
def nanMean (rs : List ℚ) : ℚ := rs.sum / (rs.length : ℚ)

/-- The sample variance `Series.std()**2` with the pandas default
`ddof=1` (Bessel's correction): divisor `count - 1`. -/
def nanVar (rs : List ℚ) : ℚ :=
  (rs.map (fun r => (r - nanMean rs) ^ 2)).sum / ((rs.length - 1 : ℕ) : ℚ)

/-- `Series.std()`: the square root of the Bessel-corrected sample
variance, taken in `ℝ` (the source computes it as a float). -/
noncomputable def nanStd (rs : List ℚ) : ℝ := Real.sqrt (nanVar rs)

/-- The result dict of `get_stand_strategy` on success (lines 97-107). -/
structure StrategyResult where
  status_msg : Msg
  current_price : ℚ
  base_close : ℚ
  base_date : Int
  buy_target : ℝ
  sell_target : ℝ
  mean : ℚ
  std : ℝ
  df : List ConfirmedRow

/-- Lines 70-107 of `get_stand_strategy`, with the gate's result and the
externally fetched history passed as arguments: fail with the gate's
message when the session is closed (line 71), fail when fewer than 5 bars
arrived (line 78), otherwise anchor on the second-to-last close, compute
the return statistics over `hist.iloc[:-1]` and derive the ±2σ band. -/
noncomputable def band_compute (status : SessionStatus) (hist : List Bar) :
    Except AnalysisError StrategyResult :=
  if status.is_open = false then
    .error (.marketClosed status.reason)
  else if h : hist.length < 5 then
    .error .insufficientHistory
  else
    let confirmed_df : List Bar := hist.dropLast
    let closes : List ℚ := confirmed_df.map Bar.close
    let rets : List ℚ := returnsOf closes
    let mean : ℚ := nanMean rets
    let std : ℝ := nanStd rets
    let base : Bar := hist.get ⟨hist.length - 2, by omega⟩
    let live : Bar := hist.get ⟨hist.length - 1, by omega⟩
    .ok
      { status_msg := status.reason
        current_price := live.close
        base_close := base.close
        base_date := base.date
        buy_target := (base.close : ℝ) * (1 + (mean : ℝ) - 2 * std)
        sell_target := (base.close : ℝ) * (1 + (mean : ℝ) + 2 * std)
        mean := mean
        std := std
        df := List.zipWith (fun b r => ⟨b.date, b.close, r⟩) confirmed_df
          (pct_change closes) }

/-- `get_stand_strategy(ticker_code, mode)` (lines 68-107): gate through
`check_market_status`, then run the band computation on the history the
provider returned for the ticker. -/
noncomputable def get_stand_strategy (ticker_code : String) (mode : Mode)
    (now : Instant) (hist : List Bar) : Except AnalysisError StrategyResult :=
  band_compute (check_market_status ticker_code mode now) hist

/-- Lines 89-90 with the caller's frame tracked explicitly: the slice
`hist.iloc[:-1]` is `.copy()`-detached before the `Return` column is
assigned, so the column assignment writes to the detached frame and the
pair's second component — the history object the caller still holds after
the call — is the input `hist` itself. -/
noncomputable def band_compute_frame (status : SessionStatus) (hist : List Bar) :
    Except AnalysisError StrategyResult × List Bar :=
  let result := band_compute status hist
  (result, hist)

/-- The three verdict branches of lines 171-176. -/
inductive Classification
  | belowBand
  | aboveBand
  | withinBand
deriving DecidableEq

/-- Lines 171-176: `BelowBand` when `current_price <= buy_target`, else
`AboveBand` when `current_price >= sell_target`, else `WithinBand`. -/
noncomputable def classify_price (current_price buy_target sell_target : ℝ) :
    Classification :=
  if current_price ≤ buy_target then .belowBand
  else if sell_target ≤ current_price then .aboveBand
  else .withinBand

/-- Modelled from the spec (claim C1's wording): the simple returns
`close[i]/close[i-1] − 1` taken over all bars except the last. -/
def spec_returns (hist : List Bar) : List ℚ :=
  List.zipWith (fun prev cur => cur.close / prev.close - 1)
    hist.dropLast hist.dropLast.tail

/-- Modelled from the spec: the arithmetic mean of `spec_returns`. -/
def spec_mean (hist : List Bar) : ℚ :=
  (spec_returns hist).sum / ((spec_returns hist).length : ℚ)

/-- Modelled from the spec: the Bessel-corrected (divisor `n − 1`) sample
variance of `spec_returns`. -/
def spec_var (hist : List Bar) : ℚ :=
  ((spec_returns hist).map (fun r => (r - spec_mean hist) ^ 2)).sum /
    (((spec_returns hist).length - 1 : ℕ) : ℚ)

/-- Modelled from the spec: the sample standard deviation. -/
noncomputable def spec_std (hist : List Bar) : ℝ := Real.sqrt (spec_var hist)

/-- An open session status, as the US-market branch of the gate returns it. -/
def openUS : SessionStatus := ⟨true, .usOpen false⟩

/-- A five-bar history with ascending dates and doubling closes. -/
def hist5 : List Bar := [⟨0, 1⟩, ⟨1, 2⟩, ⟨2, 4⟩, ⟨3, 8⟩, ⟨4, 16⟩]

/-- A five-bar history whose close never moves: every return is 0, so the
sample deviation degenerates to 0 and both band targets coincide with the
anchor. -/
def histFlat : List Bar := [⟨0, 1⟩, ⟨1, 1⟩, ⟨2, 1⟩, ⟨3, 1⟩, ⟨4, 1⟩]

/-- A five-bar history whose dates strictly decrease: non-monotonic in the
sense of the spec's `MalformedHistory` taxonomy. -/
def histNonMono : List Bar := [⟨4, 16⟩, ⟨3, 8⟩, ⟨2, 4⟩, ⟨1, 2⟩, ⟨0, 1⟩]

/- ------------------------------------------------------------------ -/
/- Helper lemmas shared by several claims                             -/
/- ------------------------------------------------------------------ -/

/-- The code's return series, computed on the projected close column,
coincides with the per-bar form used by the spec-side definitions. -/
theorem returnsOf_map_close (l : List Bar) :
    returnsOf (l.map Bar.close) =
      List.zipWith (fun prev cur => cur.close / prev.close - 1) l l.tail := by
  unfold returnsOf
  rw [← List.map_tail, List.zipWith_map]

/-- On an open session and at least five bars, `band_compute` succeeds and
its result record is the one lines 82-107 construct. -/
theorem band_compute_ok (status : SessionStatus) (hist : List Bar)
    (hopen : status.is_open = true) (hno : ¬ hist.length < 5) :
    band_compute status hist = .ok
      { status_msg := status.reason
        current_price := (hist.get ⟨hist.length - 1, by omega⟩).close
        base_close := (hist.get ⟨hist.length - 2, by omega⟩).close
        base_date := (hist.get ⟨hist.length - 2, by omega⟩).date
        buy_target := ((hist.get ⟨hist.length - 2, by omega⟩).close : ℝ) *
          (1 + (nanMean (returnsOf (hist.dropLast.map Bar.close)) : ℝ) -
            2 * nanStd (returnsOf (hist.dropLast.map Bar.close)))
        sell_target := ((hist.get ⟨hist.length - 2, by omega⟩).close : ℝ) *
          (1 + (nanMean (returnsOf (hist.dropLast.map Bar.close)) : ℝ) +
            2 * nanStd (returnsOf (hist.dropLast.map Bar.close)))
        mean := nanMean (returnsOf (hist.dropLast.map Bar.close))
        std := nanStd (returnsOf (hist.dropLast.map Bar.close))
        df := List.zipWith (fun b r => ⟨b.date, b.close, r⟩) hist.dropLast
          (pct_change (hist.dropLast.map Bar.close)) } := by
  unfold band_compute
  rw [if_neg (by simp [hopen]), dif_neg hno]

/- ------------------------------------------------------------------ -/
/- Session-clock claims                                               -/
/- ------------------------------------------------------------------ -/

/-- Claim C5: on a weekend weekday (5 or 6), the gate returns closed with
the fixed weekend message, for every ticker and every time-of-day — the
weekend check precedes and short-circuits the window tests. -/
theorem C5_weekend_gate (ticker : String) (now : Instant)
    (h : 5 ≤ now.weekday) :
    check_market_status ticker .real now = ⟨false, .weekend⟩ := by
  simp [check_market_status, h]

/-- Witness for C5 at Saturday 14:00 with a US ticker. -/
theorem C5_weekend_gate_witness :
    check_market_status "QQQ" .real ⟨5, mkTime 14 0 0⟩ = ⟨false, .weekend⟩ :=
  C5_weekend_gate "QQQ" ⟨5, mkTime 14 0 0⟩ (by decide)

/-- Counterexample to claim C4 as stated: the code's foreign-equity window
starts at 23:50, not 23:20, so a weekday instant at 23:20 is classified
closed (with the US-closed message), while the claim says 23:20 is open. -/
theorem C4_foreign_window_cex :
    check_market_status "NVDA" .real ⟨2, mkTime 23 20 0⟩ =
      ⟨false, .usClosed (mkTime 23 20 0)⟩ ∧
    (check_market_status "NVDA" .real ⟨2, mkTime 23 20 0⟩).is_open = false := by
  constructor
  · decide
  · decide

/-- Claim C4 (amended): for a non-Korean ticker on a non-weekend weekday,
the foreign-equity membership test is `now ≥ 23:50 OR now ≤ 06:00` with
closed-interval boundaries; in particular 23:50, 23:59, 00:00 and 06:00
are open while 23:49 and 06:01 are closed. -/
theorem C4_foreign_window_membership (ticker : String) (now : Instant)
    (hwd : now.weekday < 5) (hkr : isKoreanTicker ticker = false) :
    ((check_market_status ticker .real now).is_open = true ↔
      (mkTime 23 50 0 ≤ now.tod ∨ now.tod ≤ mkTime 6 0 0)) := by
  by_cases hc : (mkTime 23 50 0 ≤ now.tod ∨ now.tod ≤ mkTime 6 0 0) <;>
    simp [check_market_status, hkr, show ¬ 5 ≤ now.weekday by omega, hc]

/-- Witness for C4's amended theorem at the lower boundary 23:50. -/
theorem C4_foreign_window_membership_witness :
    ((check_market_status "NVDA" .real ⟨2, mkTime 23 50 0⟩).is_open = true ↔
      (mkTime 23 50 0 ≤ mkTime 23 50 0 ∨ mkTime 23 50 0 ≤ mkTime 6 0 0)) :=
  C4_foreign_window_membership "NVDA" ⟨2, mkTime 23 50 0⟩ (by decide) (by decide)

/-- Claim C10: a forced evaluation whose market disagrees with the
ticker's market always comes back closed — the synthetic Wednesday 14:00
of forced-Korean mode misses the foreign window, and the synthetic
Wednesday 01:00 of forced-US mode misses the Korean 09:20-15:30 window. -/
theorem C10_forced_mode_mismatch (ticker : String) (now : Instant) :
    (isKoreanTicker ticker = false →
      (check_market_status ticker .mockKr now).is_open = false) ∧
    (isKoreanTicker ticker = true →
      (check_market_status ticker .mockUs now).is_open = false) := by
  constructor <;> intro h <;> simp [check_market_status, h, mkTime]

/- ------------------------------------------------------------------ -/
/- Band-engine claims                                                 -/
/- ------------------------------------------------------------------ -/

/-- Claim C2: with a closed session status the engine fails with the
gate's market-closed message, for every history — and the outcome does
not depend on the history argument at all. -/
theorem C2_market_closed_gate (status : SessionStatus) (hist hist2 : List Bar)
    (h : status.is_open = false) :
    band_compute status hist = .error (.marketClosed status.reason) ∧
    band_compute status hist = band_compute status hist2 := by
  refine ⟨?_, ?_⟩ <;> simp [band_compute, h]

/-- Witness for C2: closed weekend status, two unrelated histories. -/
theorem C2_market_closed_gate_witness :
    band_compute ⟨false, .weekend⟩ [] = .error (.marketClosed .weekend) ∧
    band_compute ⟨false, .weekend⟩ [] =
      band_compute ⟨false, .weekend⟩ [⟨0, 1⟩] :=
  C2_market_closed_gate ⟨false, .weekend⟩ [] [⟨0, 1⟩] rfl

/-- Counterexample to claim C3 as stated: with a closed session status and
an empty history the engine reports the market-closed error, not
`InsufficientHistory` — the session gate runs first. -/
theorem C3_closed_short_history_cex :
    band_compute ⟨false, .weekend⟩ ([] : List Bar) =
      .error (.marketClosed .weekend) ∧
    band_compute ⟨false, .weekend⟩ ([] : List Bar) ≠
      .error .insufficientHistory := by
  refine ⟨?_, ?_⟩ <;> simp [band_compute]

/-- Claim C3 (amended): with an OPEN session status, a history of fewer
than five bars fails with `InsufficientHistory`; with a closed status the
market-closed error takes precedence. -/
theorem C3_insufficient_history_open (status : SessionStatus)
    (hist : List Bar) (hopen : status.is_open = true)
    (hlen : hist.length < 5) :
    band_compute status hist = .error .insufficientHistory := by
  simp [band_compute, hopen, hlen]

/-- Witness for C3's amended theorem: open status, empty history. -/
theorem C3_insufficient_history_open_witness :
    band_compute openUS [] = .error .insufficientHistory :=
  C3_insufficient_history_open openUS [] rfl (by decide)

/-- Claim C1: on an open session and at least five bars, the result
anchors on the second-to-last bar, quotes the last close live, takes mean
and Bessel-corrected sample deviation of the simple returns over all bars
except the last, and sets the band at `anchor × (1 + mean ∓ 2·std)`. -/
theorem C1_band_result_fields (status : SessionStatus) (hist : List Bar)
    (hopen : status.is_open = true) (hlen : 5 ≤ hist.length) :
    ∃ r, band_compute status hist = .ok r ∧
      r.base_close = (hist.get ⟨hist.length - 2, by omega⟩).close ∧
      r.base_date = (hist.get ⟨hist.length - 2, by omega⟩).date ∧
      r.current_price = (hist.get ⟨hist.length - 1, by omega⟩).close ∧
      r.mean = spec_mean hist ∧
      r.std = spec_std hist ∧
      r.buy_target =
        (r.base_close : ℝ) * (1 + (spec_mean hist : ℝ) - 2 * spec_std hist) ∧
      r.sell_target =
        (r.base_close : ℝ) * (1 + (spec_mean hist : ℝ) + 2 * spec_std hist) := by
  have hno : ¬ hist.length < 5 := by omega
  have hrets : returnsOf (hist.dropLast.map Bar.close) = spec_returns hist := by
    rw [returnsOf_map_close]; rfl
  refine ⟨_, band_compute_ok status hist hopen hno, rfl, rfl, rfl, ?_, ?_, ?_, ?_⟩
  · show nanMean (returnsOf (hist.dropLast.map Bar.close)) = spec_mean hist
    rw [hrets]; rfl
  · show nanStd (returnsOf (hist.dropLast.map Bar.close)) = spec_std hist
    rw [hrets]; rfl
  · show ((hist.get ⟨hist.length - 2, by omega⟩).close : ℝ) *
        (1 + (nanMean (returnsOf (hist.dropLast.map Bar.close)) : ℝ) -
          2 * nanStd (returnsOf (hist.dropLast.map Bar.close))) =
      ((hist.get ⟨hist.length - 2, by omega⟩).close : ℝ) *
        (1 + (spec_mean hist : ℝ) - 2 * spec_std hist)
    rw [hrets]; rfl
  · show ((hist.get ⟨hist.length - 2, by omega⟩).close : ℝ) *
        (1 + (nanMean (returnsOf (hist.dropLast.map Bar.close)) : ℝ) +
          2 * nanStd (returnsOf (hist.dropLast.map Bar.close))) =
      ((hist.get ⟨hist.length - 2, by omega⟩).close : ℝ) *
        (1 + (spec_mean hist : ℝ) + 2 * spec_std hist)
    rw [hrets]; rfl

/-- Witness for C1 on the concrete doubling five-bar history. -/
theorem C1_band_result_fields_witness :
    ∃ r, band_compute openUS hist5 = .ok r ∧
      r.base_close = (hist5.get ⟨hist5.length - 2, by decide⟩).close ∧
      r.base_date = (hist5.get ⟨hist5.length - 2, by decide⟩).date ∧
      r.current_price = (hist5.get ⟨hist5.length - 1, by decide⟩).close ∧
      r.mean = spec_mean hist5 ∧
      r.std = spec_std hist5 ∧
      r.buy_target =
        (r.base_close : ℝ) * (1 + (spec_mean hist5 : ℝ) - 2 * spec_std hist5) ∧
      r.sell_target =
        (r.base_close : ℝ) * (1 + (spec_mean hist5 : ℝ) + 2 * spec_std hist5) :=
  C1_band_result_fields openUS hist5 rfl (by decide)

/-- Claim C9: with a non-negative anchor close, the buy target never
exceeds the sell target, because the deviation term is non-negative. -/
theorem C9_band_ordered (status : SessionStatus) (hist : List Bar)
    (hopen : status.is_open = true) (hlen : 5 ≤ hist.length)
    (hanchor : 0 ≤ (hist.get ⟨hist.length - 2, by omega⟩).close) :
    ∃ r, band_compute status hist = .ok r ∧
      r.buy_target ≤ r.sell_target := by
  have hno : ¬ hist.length < 5 := by omega
  refine ⟨_, band_compute_ok status hist hopen hno, ?_⟩
  have hs : (0 : ℝ) ≤ nanStd (returnsOf (hist.dropLast.map Bar.close)) :=
    Real.sqrt_nonneg _
  have hb : (0 : ℝ) ≤ ((hist.get ⟨hist.length - 2, by omega⟩).close : ℝ) := by
    exact_mod_cast hanchor
  have key : ∀ (a m s : ℝ), 0 ≤ a → 0 ≤ s →
      a * (1 + m - 2 * s) ≤ a * (1 + m + 2 * s) := by
    intro a m s ha hs0
    exact mul_le_mul_of_nonneg_left (by linarith) ha
  exact key _ _ _ hb hs

/-- Witness for C9 on the doubling five-bar history (anchor close 8 ≥ 0). -/
theorem C9_band_ordered_witness :
    ∃ r, band_compute openUS hist5 = .ok r ∧
      r.buy_target ≤ r.sell_target :=
  C9_band_ordered openUS hist5 rfl (by decide) (by decide)

/-- Claim C8: the caller's history after the call is the history it
supplied — the `Return` column lands on the `.copy()`-detached frame. -/
theorem C8_history_unchanged (status : SessionStatus) (hist : List Bar) :
    (band_compute_frame status hist).2 = hist ∧
    (band_compute_frame status hist).1 = band_compute status hist :=
  ⟨rfl, rfl⟩

/-- Counterexample to claim C7 as stated: a five-bar history with strictly
decreasing dates is accepted — the computation succeeds instead of
failing with `MalformedHistory`. -/
theorem C7_nonmonotonic_accepted_cex :
    (∃ r, band_compute openUS histNonMono = .ok r) ∧
    band_compute openUS histNonMono ≠ .error .malformedHistory := by
  refine ⟨⟨_, band_compute_ok openUS histNonMono rfl (by decide)⟩, ?_⟩
  rw [band_compute_ok openUS histNonMono rfl (by decide)]
  simp

/-- Claim C7 (amended): the code performs no malformed-history
validation — no run of the engine produces the `MalformedHistory` error,
and with an open session and at least five bars the computation succeeds
whatever the dates are. -/
theorem C7_no_malformed_error (status : SessionStatus) (hist : List Bar) :
    band_compute status hist ≠ .error .malformedHistory ∧
    (status.is_open = true → 5 ≤ hist.length →
      ∃ r, band_compute status hist = .ok r) := by
  constructor
  · by_cases h1 : status.is_open = false
    · simp [band_compute, h1]
    · by_cases h2 : hist.length < 5
      · simp [band_compute, h1, h2]
      · rw [band_compute_ok status hist (by simpa using h1) h2]
        simp
  · intro ho hl
    exact ⟨_, band_compute_ok status hist ho (by omega)⟩

/-- Counterexample to claim C6 as stated: on the flat five-bar history
every return is 0, so both targets equal the anchor and the live price
ties with BOTH targets at once; lines 171-176 test the buy side first, so
the tie with `sell_target` classifies as `belowBand`, not `aboveBand`. -/
theorem C6_tie_degenerate_cex :
    ∃ r, band_compute openUS histFlat = .ok r ∧
      (r.current_price : ℝ) = r.sell_target ∧
      classify_price (r.current_price : ℝ) r.buy_target r.sell_target =
        .belowBand ∧
      classify_price (r.current_price : ℝ) r.buy_target r.sell_target ≠
        .aboveBand := by
  have hrets : returnsOf (histFlat.dropLast.map Bar.close) = [0, 0, 0] := by
    simp [histFlat, returnsOf]
  have hm : nanMean [(0 : ℚ), 0, 0] = 0 := by simp [nanMean]
  have hs : nanStd [(0 : ℚ), 0, 0] = 0 := by simp [nanStd, nanVar, nanMean]
  refine ⟨_, band_compute_ok openUS histFlat rfl (by decide), ?_, ?_, ?_⟩
  · show ((1 : ℚ) : ℝ) = ((1 : ℚ) : ℝ) *
      (1 + (nanMean (returnsOf (histFlat.dropLast.map Bar.close)) : ℝ) +
        2 * nanStd (returnsOf (histFlat.dropLast.map Bar.close)))
    rw [hrets, hm, hs]
    norm_num
  · show classify_price ((1 : ℚ) : ℝ)
      (((1 : ℚ) : ℝ) *
        (1 + (nanMean (returnsOf (histFlat.dropLast.map Bar.close)) : ℝ) -
          2 * nanStd (returnsOf (histFlat.dropLast.map Bar.close))))
      (((1 : ℚ) : ℝ) *
        (1 + (nanMean (returnsOf (histFlat.dropLast.map Bar.close)) : ℝ) +
          2 * nanStd (returnsOf (histFlat.dropLast.map Bar.close)))) = .belowBand
    rw [hrets, hm, hs]
    norm_num [classify_price]
  · show classify_price ((1 : ℚ) : ℝ)
      (((1 : ℚ) : ℝ) *
        (1 + (nanMean (returnsOf (histFlat.dropLast.map Bar.close)) : ℝ) -
          2 * nanStd (returnsOf (histFlat.dropLast.map Bar.close))))
      (((1 : ℚ) : ℝ) *
        (1 + (nanMean (returnsOf (histFlat.dropLast.map Bar.close)) : ℝ) +
          2 * nanStd (returnsOf (histFlat.dropLast.map Bar.close)))) ≠ .aboveBand
    rw [hrets, hm, hs]
    norm_num [classify_price]
    decide

/-- Claim C6 (amended): a live price equal to `buy_target` classifies as
`belowBand`; one equal to `sell_target` classifies as `aboveBand`
provided it is strictly above `buy_target` (the buy-side test runs first,
so when the two targets and the live price all coincide the verdict is
`belowBand`); `withinBand` holds exactly strictly inside the band. -/
theorem C6_tie_break (live buy sell : ℝ) :
    (live = buy → classify_price live buy sell = .belowBand) ∧
    (live = sell → buy < live → classify_price live buy sell = .aboveBand) ∧
    (classify_price live buy sell = .withinBand ↔ buy < live ∧ live < sell) := by
  unfold classify_price
  refine ⟨?_, ?_, ?_⟩
  · intro h
    rw [if_pos (le_of_eq h)]
  · intro h hb
    rw [if_neg (not_le.mpr hb), if_pos (le_of_eq h.symm)]
  · constructor
    · intro h
      by_cases h1 : live ≤ buy
      · rw [if_pos h1] at h; simp at h
      · by_cases h2 : sell ≤ live
        · rw [if_neg h1, if_pos h2] at h; simp at h
        · exact ⟨not_le.mp h1, not_le.mp h2⟩
    · rintro ⟨hb, hs⟩
      rw [if_neg (not_le.mpr hb), if_neg (not_le.mpr hs)]

end StandApp
